import Mathlib

/-!
Verification of the lane-change-and-acceleration control-and-reward subsystem
of `cistar_dev/cistar/envs/lane_changing.py`.

Modelling conventions:
* Python floats are modelled as rationals (`ℚ`); simulation ticks and the
  lane-change cooldown duration are integers (`ℤ`); vehicle identifiers are
  naturals (`ℕ`).
* Euclidean norms (`np.linalg.norm`) land in `ℝ` via `Real.sqrt`.
* The ambient Gaussian noise source used by `get_state` is modelled as
  explicit per-vehicle noise inputs.
* numpy boolean-mask assignment (`direction[mask] = 0`) demands that the mask
  length equal the indexed array's length, raising an `IndexError` otherwise;
  it is modelled by an `Except`-valued operation.
* In `LaneChangeOnlyEnvironment.apply_rl_actions` the local name `direction`
  aliases the caller-supplied `actions` buffer, so the mask assignment mutates
  the caller's array; the embedding models this by returning the post-call
  contents of that buffer as the `dirs` component of the result.
-/

namespace LaneChangingEnv

/-- `np.round` on a scalar: round to the nearest integer, ties to even
(banker's rounding), as numpy does. -/
def pyRound (q : ℚ) : ℤ :=
  let f := ⌊q⌋
  if q - (f : ℚ) < 1/2 then f
  else if 1/2 < q - (f : ℚ) then f + 1
  else if 2 ∣ f then f else f + 1

/-- `actions[::2]`: the even-indexed entries of a list. -/
def evens : List ℚ → List ℚ
  | [] => []
  | [x] => [x]
  | x :: _ :: rest => x :: evens rest

/-- `actions[1::2]`: the odd-indexed entries of a list. -/
def odds : List ℚ → List ℚ
  | [] => []
  | _ :: rest => evens rest

/-- The per-vehicle cooldown test building `non_lane_changing_veh`:
`self.timer <= self.lane_change_duration + self.vehicles.get_state(veh_id, 'last_lc')`
(identical in both lane-changing variants). -/
def lcBlocked (timer lane_change_duration last_lc : ℤ) : Bool :=
  timer ≤ lane_change_duration + last_lc

/-- numpy boolean-mask assignment `xs[mask] = np.array([0] * sum(mask))`:
entries of `xs` where the mask holds are overwritten with `0`.  The boolean
index must match the indexed array's length, else numpy raises `IndexError`. -/
def boolMaskSetZero (mask : List Bool) (xs : List ℚ) : Except String (List ℚ) :=
  if mask.length = xs.length then
    .ok (List.zipWith (fun b x => if b then 0 else x) mask xs)
  else
    .error "IndexError: boolean index did not match indexed array"

/-- `sorted_rl_ids = [veh_id for veh_id in self.sorted_ids if veh_id in self.rl_ids]`. -/
def sortedRLIds (sorted_ids rl_ids : List ℕ) : List ℕ :=
  sorted_ids.filter (fun v => decide (v ∈ rl_ids))

/-- The pair of per-vehicle command sequences handed to the simulator:
`apply_acceleration(sorted_rl_ids, acc=...)` and
`apply_lane_change(sorted_rl_ids, direction=...)`, both addressed by the
identifiers in `ids`. -/
structure AppliedCommands where
  ids : List ℕ
  accels : List ℚ
  dirs : List ℚ
  deriving DecidableEq, Repr

/-- Euclidean norm `np.linalg.norm` of a vector of rationals, as a real. -/
noncomputable def pyNorm (xs : List ℚ) : ℝ :=
  Real.sqrt ((xs.map (fun x => ((x : ℝ)) ^ 2)).sum)

/-- Modelled from the spec: `cistar.core.rewards.desired_velocity` is imported
from `cistar.core.rewards`, which is not under `src/`.  Per the spec, the
policy-1 score is the negative Euclidean norm of the per-vehicle
(speed − target velocity) errors across all vehicles, and the failure
override — simulator failure signalled, or any vehicle's reported speed
negative — is checked first in all policies and returns the fixed penalty
−20 immediately. -/
noncomputable def desired_velocity (speeds : List ℚ) (target_velocity : ℚ)
    (fail : Bool) : ℝ :=
  if fail || speeds.any (fun v => decide (v < 0)) then -20
  else -pyNorm (speeds.map (fun v => v - target_velocity))

namespace SimpleLaneChangingAccelerationEnvironment

/-- `SimpleLaneChangingAccelerationEnvironment.apply_rl_actions`:
`acceleration = actions[::2]`, `direction = np.round(actions[1::2])`,
`sorted_rl_ids` filters the canonical ordering down to rl vehicles, the
cooldown mask zeroes the direction of blocked vehicles, and both command
sequences are dispatched addressed by `sorted_rl_ids`. -/
def apply_rl_actions (actions : List ℚ) (sorted_ids rl_ids : List ℕ)
    (timer lane_change_duration : ℤ) (last_lc : ℕ → ℤ) :
    Except String AppliedCommands :=
  let acceleration := evens actions
  let direction := (odds actions).map (fun q => (pyRound q : ℚ))
  let srl := sortedRLIds sorted_ids rl_ids
  let mask := srl.map (fun v => lcBlocked timer lane_change_duration (last_lc v))
  (boolMaskSetZero mask direction).map (fun dirs => ⟨srl, acceleration, dirs⟩)

/-- `SimpleLaneChangingAccelerationEnvironment.compute_reward`:
`reward = rewards.desired_velocity(self, fail=kwargs["fail"])`, then for each
rl vehicle whose `last_lc` state equals the current `timer` the reward is
decreased by 1. -/
noncomputable def compute_reward (speeds : List ℚ) (target_velocity : ℚ)
    (fail : Bool) (rl_ids : List ℕ) (last_lc : ℕ → ℤ) (timer : ℤ) : ℝ :=
  rl_ids.foldl (fun reward veh_id => if last_lc veh_id = timer then reward - 1 else reward)
    (desired_velocity speeds target_velocity fail)

/-- `SimpleLaneChangingAccelerationEnvironment.get_state` (the structurally
identical `LaneChangeOnlyEnvironment.get_state` differs only in accessor
style): one row `[speed + normal(0, vel_std), position + normal(0, pos_std),
lane]` per vehicle in the canonical (sorted) ordering; the ambient Gaussian
draws are the explicit `noiseV`/`noiseP` inputs. -/
def get_state (n : ℕ) (speed absolute_position lane : ℕ → ℚ)
    (noiseV noiseP : ℕ → ℚ) : List (List ℚ) :=
  (List.range n).map
    (fun i => [speed i + noiseV i, absolute_position i + noiseP i, lane i])

end SimpleLaneChangingAccelerationEnvironment

namespace LaneChangeOnlyEnvironment

/-- `LaneChangeOnlyEnvironment.apply_rl_actions`: `direction = actions`
(an alias of the caller's buffer), the cooldown mask zeroes blocked entries
in place, lane changes are dispatched for `sorted_rl_ids`, and accelerations
are produced by the per-vehicle longitudinal controller
(`self.rl_controller[veh_id].get_action(self)`, modelled by `rl_controller`).
The `dirs` component of the result is simultaneously the dispatched direction
sequence and the post-call contents of the caller's `actions` buffer. -/
def apply_rl_actions (actions : List ℚ) (sorted_ids rl_ids : List ℕ)
    (timer lane_change_duration : ℤ) (last_lc : ℕ → ℤ)
    (rl_controller : ℕ → ℚ) : Except String AppliedCommands :=
  let srl := sortedRLIds sorted_ids rl_ids
  let mask := srl.map (fun v => lcBlocked timer lane_change_duration (last_lc v))
  (boolMaskSetZero mask actions).map
    (fun dirs => ⟨srl, srl.map rl_controller, dirs⟩)

end LaneChangeOnlyEnvironment

namespace RLOnlyLane

/-- `RLOnlyLane.compute_reward` with the hard-coded `reward_type = 1`:
return −20 if any entry of the speed channel `state[0]` is negative or the
`fail` flag is set; otherwise zero out the speeds of vehicles not in lane 0,
and return `max(max_cost - cost, 0)` where `max_cost` is the norm of the
all-at-target vector over `self.scenario.num_vehicles` vehicles and `cost`
the norm of the gated per-vehicle errors. -/
noncomputable def compute_reward (speeds lanes : List ℚ) (fail : Bool)
    (target_velocity : ℚ) (num_vehicles : ℕ) : ℝ :=
  if speeds.any (fun v => decide (v < 0)) || fail then -20
  else
    let max_cost := pyNorm (List.replicate num_vehicles target_velocity)
    let vel := List.zipWith (fun v l => if l ≠ 0 then 0 else v) speeds lanes
    let cost := pyNorm (vel.map (fun v => v - target_velocity))
    max (max_cost - cost) 0

end RLOnlyLane

/-- Stated from the spec's words (for the refinement comparison of the
lane-gated policy): the maximum achievable score norm — the Euclidean norm of
the all-vehicles-at-target-velocity vector. -/
noncomputable def maxScore_spec (target_velocity : ℚ) (num_vehicles : ℕ) : ℝ :=
  pyNorm (List.replicate num_vehicles target_velocity)

/-- Stated from the spec's words (for the refinement comparison of the
lane-gated policy): the actual score norm — the Euclidean norm of the
per-vehicle (speed − target velocity) errors, where every vehicle not in
lane 0 has its speed replaced by 0 first. -/
noncomputable def actualScore_spec (speeds lanes : List ℚ)
    (target_velocity : ℚ) : ℝ :=
  pyNorm ((List.zipWith (fun v l => if l = 0 then v else 0) speeds lanes).map
    (fun v => v - target_velocity))

/-! ### Supporting lemmas -/

theorem evens_length (xs : List ℚ) : (evens xs).length = (xs.length + 1) / 2 := by
  match xs with
  | [] => rfl
  | [x] => simp [evens]
  | x :: y :: rest =>
    simp only [evens, List.length_cons, evens_length rest]
    omega

theorem odds_length (xs : List ℚ) : (odds xs).length = xs.length / 2 := by
  match xs with
  | [] => rfl
  | x :: rest =>
    simp only [odds, List.length_cons, evens_length rest]

theorem evens_getElem? (xs : List ℚ) (i : ℕ) : (evens xs)[i]? = xs[2 * i]? := by
  match xs, i with
  | [], i => simp [evens]
  | [x], 0 => rfl
  | [x], i + 1 =>
    simp only [evens]
    rw [show 2 * (i + 1) = (2 * i + 1) + 1 by ring]
    simp
  | x :: y :: rest, 0 => simp [evens]
  | x :: y :: rest, i + 1 =>
    show (x :: evens rest)[i + 1]? = (x :: y :: rest)[2 * (i + 1)]?
    rw [show 2 * (i + 1) = (2 * i + 1) + 1 by ring]
    rw [List.getElem?_cons_succ, List.getElem?_cons_succ, List.getElem?_cons_succ]
    exact evens_getElem? rest i

theorem odds_getElem? (xs : List ℚ) (i : ℕ) : (odds xs)[i]? = xs[2 * i + 1]? := by
  match xs with
  | [] => simp [odds]
  | x :: rest =>
    show (evens rest)[i]? = (x :: rest)[2 * i + 1]?
    rw [List.getElem?_cons_succ]
    exact evens_getElem? rest i

theorem sortedRLIds_self (ids : List ℕ) : sortedRLIds ids ids = ids :=
  List.filter_eq_self.mpr (fun a ha => by simpa using ha)

/-- Success case of the numpy boolean-mask assignment, with the mask obtained
by mapping a predicate over a list of vehicles of matching length. -/
theorem boolMaskSetZero_map_ok (p : ℕ → Bool) (vs : List ℕ) (xs : List ℚ)
    (h : vs.length = xs.length) :
    boolMaskSetZero (vs.map p) xs
      = .ok (List.zipWith (fun v x => if p v then 0 else x) vs xs) := by
  unfold boolMaskSetZero
  rw [if_pos (by simpa using h), List.zipWith_map_left]

/-- The lane-change penalty loop: starting from `r`, subtracting 1 for every
rl vehicle whose `last_lc` equals the current tick yields `r` minus the count
of such vehicles. -/
theorem foldl_lc_penalty (last_lc : ℕ → ℤ) (timer : ℤ) (l : List ℕ) (r : ℝ) :
    l.foldl (fun reward veh_id => if last_lc veh_id = timer then reward - 1 else reward) r
      = r - (l.countP (fun v => decide (last_lc v = timer)) : ℝ) := by
  induction l generalizing r with
  | nil => simp
  | cons x xs ih =>
    rw [List.foldl_cons, List.countP_cons]
    by_cases hx : last_lc x = timer
    · rw [if_pos hx, ih]
      simp [hx]
      ring
    · rw [if_neg hx, ih]
      simp [hx]

/-- Characterization of `SimpleLaneChangingAccelerationEnvironment.apply_rl_actions`:
it succeeds exactly when the decoded direction sequence and the rl-vehicle
mask have equal length, and then dispatches `(ids, accels, dirs)` as below. -/
theorem simple_apply_ok_iff (actions : List ℚ) (sorted_ids rl_ids : List ℕ)
    (timer d : ℤ) (last_lc : ℕ → ℤ) (out : AppliedCommands) :
    SimpleLaneChangingAccelerationEnvironment.apply_rl_actions actions sorted_ids rl_ids
        timer d last_lc = .ok out
      ↔ (odds actions).length = (sortedRLIds sorted_ids rl_ids).length
        ∧ out = ⟨sortedRLIds sorted_ids rl_ids, evens actions,
            List.zipWith (fun v q => if lcBlocked timer d (last_lc v) then 0 else (pyRound q : ℚ))
              (sortedRLIds sorted_ids rl_ids) (odds actions)⟩ := by
  unfold SimpleLaneChangingAccelerationEnvironment.apply_rl_actions
  dsimp only
  by_cases h : (odds actions).length = (sortedRLIds sorted_ids rl_ids).length
  · rw [boolMaskSetZero_map_ok _ _ _ (by simpa using h.symm)]
    simp only [Except.map, Except.ok.injEq, List.zipWith_map_right]
    constructor
    · intro hout
      exact ⟨h, hout.symm⟩
    · intro hout
      exact hout.2.symm
  · unfold boolMaskSetZero
    rw [if_neg (by simpa using fun hh => h hh.symm)]
    simp only [Except.map]
    constructor
    · intro hout
      exact absurd hout (by simp)
    · intro hout
      exact absurd hout.1 h

/-- Characterization of `LaneChangeOnlyEnvironment.apply_rl_actions`:
it succeeds exactly when the caller's action buffer and the rl-vehicle mask
have equal length; the `dirs` component is both the dispatched direction
sequence and the post-call contents of the caller's buffer. -/
theorem laneOnly_apply_ok_iff (actions : List ℚ) (sorted_ids rl_ids : List ℕ)
    (timer d : ℤ) (last_lc : ℕ → ℤ) (ctrl : ℕ → ℚ) (out : AppliedCommands) :
    LaneChangeOnlyEnvironment.apply_rl_actions actions sorted_ids rl_ids
        timer d last_lc ctrl = .ok out
      ↔ actions.length = (sortedRLIds sorted_ids rl_ids).length
        ∧ out = ⟨sortedRLIds sorted_ids rl_ids, (sortedRLIds sorted_ids rl_ids).map ctrl,
            List.zipWith (fun v q => if lcBlocked timer d (last_lc v) then 0 else q)
              (sortedRLIds sorted_ids rl_ids) actions⟩ := by
  unfold LaneChangeOnlyEnvironment.apply_rl_actions
  dsimp only
  by_cases h : actions.length = (sortedRLIds sorted_ids rl_ids).length
  · rw [boolMaskSetZero_map_ok _ _ _ (by simpa using h.symm)]
    simp only [Except.map, Except.ok.injEq]
    constructor
    · intro hout
      exact ⟨h, hout.symm⟩
    · intro hout
      exact hout.2.symm
  · unfold boolMaskSetZero
    rw [if_neg (by simpa using fun hh => h hh.symm)]
    simp only [Except.map]
    constructor
    · intro hout
      exact absurd hout (by simp)
    · intro hout
      exact absurd hout.1 h

/-! ### Claims -/

/-- **C1** (amended).  Lane-Change Cooldown Filter, both lane-changing
variants: for every cooldown duration `d`, current tick `t`, last-change tick
`t0` and requested direction, the vehicle's direction command is forced to
no-change exactly when `t - t0 ≤ d`, and the requested direction passes
through exactly when `t - t0 > d`; the boundary is exclusive, i.e. at
`t - t0 = d` the vehicle is still blocked. -/
theorem c1_cooldown_boundary (t d t0 : ℤ) (a r : ℚ) (v : ℕ) (ctrl : ℕ → ℚ) :
    SimpleLaneChangingAccelerationEnvironment.apply_rl_actions [a, r] [v] [v] t d (fun _ => t0)
      = .ok ⟨[v], [a], [if t - t0 ≤ d then 0 else (pyRound r : ℚ)]⟩
    ∧ LaneChangeOnlyEnvironment.apply_rl_actions [r] [v] [v] t d (fun _ => t0) ctrl
      = .ok ⟨[v], [ctrl v], [if t - t0 ≤ d then 0 else r]⟩ := by
  have hsrl : sortedRLIds [v] [v] = [v] := sortedRLIds_self [v]
  have hb : lcBlocked t d t0 = decide (t - t0 ≤ d) := by
    unfold lcBlocked
    exact decide_eq_decide.mpr (by omega)
  constructor
  · refine (simple_apply_ok_iff _ _ _ _ _ _ _).mpr ⟨?_, ?_⟩
    · simp [odds, evens, hsrl]
    · simp [hsrl, evens, odds, hb]
  · refine (laneOnly_apply_ok_iff _ _ _ _ _ _ _ _).mpr ⟨?_, ?_⟩
    · simp [hsrl]
    · simp [hsrl, hb]

/-- **C1** counterexample to the claim as stated: with cooldown duration
`d = 5`, last lane change at tick `t0 = 10` and current tick `t = 15` we have
`t - t0 = d`, so by the claim the vehicle is eligible and its requested
direction `1` should pass through; the code forces the direction command to
no-change (`0`). -/
theorem c1_claim_counterexample :
    ((15 : ℤ) - 10 = 5)
    ∧ SimpleLaneChangingAccelerationEnvironment.apply_rl_actions [0, 1] [0] [0] 15 5 (fun _ => 10)
        = .ok ⟨[0], [0], [0]⟩
    ∧ SimpleLaneChangingAccelerationEnvironment.apply_rl_actions [0, 1] [0] [0] 15 5 (fun _ => 10)
        ≠ .ok ⟨[0], [0], [1]⟩ := by
  refine ⟨by norm_num, rfl, ?_⟩
  have h : SimpleLaneChangingAccelerationEnvironment.apply_rl_actions [0, 1] [0] [0] 15 5
      (fun _ => 10) = .ok ⟨[0], [0], [0]⟩ := rfl
  rw [h]
  simp

/-- **C2** (amended).  Neither variant of `apply_rl_actions` validates the
action-vector length, and there is no dedicated shape error: in the
interleaved variant a vector of length `2n + 1` (one more than the expected
`2n` for `n` controllable vehicles) is decoded and dispatched without any
error, silently forwarding `n + 1` accelerations for `n` vehicles; the only
length consistency is enforced incidentally by the numpy boolean-mask
assignment, which raises an `IndexError` in the direction-only variant
whenever the vector length differs from the controllable-vehicle count. -/
theorem c2_no_shape_validation (ids : List ℕ) (actions : List ℚ)
    (timer d : ℤ) (last_lc : ℕ → ℤ) (ctrl : ℕ → ℚ)
    (h : actions.length = 2 * ids.length + 1) :
    (∃ out, SimpleLaneChangingAccelerationEnvironment.apply_rl_actions actions ids ids
          timer d last_lc = .ok out
        ∧ out.ids = ids ∧ out.accels = evens actions
        ∧ (evens actions).length = ids.length + 1)
    ∧ (∀ dirActions : List ℚ, dirActions.length ≠ ids.length →
        ∃ e, LaneChangeOnlyEnvironment.apply_rl_actions dirActions ids ids
            timer d last_lc ctrl = .error e) := by
  have hsrl := sortedRLIds_self ids
  have hodds : (odds actions).length = ids.length := by
    rw [odds_length, h]
    omega
  have hevens : (evens actions).length = ids.length + 1 := by
    rw [evens_length, h]
    omega
  constructor
  · refine ⟨_, (simple_apply_ok_iff _ _ _ _ _ _ _).mpr ⟨by rw [hodds, hsrl], rfl⟩, ?_, rfl, hevens⟩
    simpa using hsrl
  · intro dirActions hne
    unfold LaneChangeOnlyEnvironment.apply_rl_actions boolMaskSetZero
    dsimp only
    rw [if_neg (by simp only [List.length_map, hsrl]; exact fun hh => hne hh.symm)]
    exact ⟨_, rfl⟩

/-- Witness for **C2**: one controllable vehicle (expected action length 2),
an action vector of length 3 is silently decoded, and in the direction-only
variant any mismatched length faults with an index error. -/
theorem c2_no_shape_validation_witness :
    (∃ out, SimpleLaneChangingAccelerationEnvironment.apply_rl_actions [1, 2, 3] [0] [0]
          0 5 (fun _ => 0) = .ok out
        ∧ out.ids = [0] ∧ out.accels = evens [1, 2, 3]
        ∧ (evens [1, 2, 3]).length = [0].length + 1)
    ∧ (∀ dirActions : List ℚ, dirActions.length ≠ ([0] : List ℕ).length →
        ∃ e, LaneChangeOnlyEnvironment.apply_rl_actions dirActions [0] [0]
            0 5 (fun _ => 0) (fun _ => 0) = .error e) :=
  c2_no_shape_validation [0] [1, 2, 3] 0 5 (fun _ => 0) (fun _ => 0) (by decide)

/-- **C2** counterexample to the claim as stated: with one controllable
vehicle the expected action length is 2, yet the vector `[1, 2, 3]` of
length 3 is decoded and dispatched successfully — no error of any kind is
raised, and the vehicle receives two acceleration entries' worth of data
(`[1, 3]`) for a single-vehicle fleet. -/
theorem c2_claim_counterexample :
    ([1, 2, 3] : List ℚ).length ≠ 2 * ([0] : List ℕ).length
    ∧ SimpleLaneChangingAccelerationEnvironment.apply_rl_actions [1, 2, 3] [0] [0]
        0 5 (fun _ => 0) = .ok ⟨[0], [1, 3], [0]⟩ :=
  ⟨by decide, rfl⟩

/-- **C3** (amended).  When the simulator signals failure or some vehicle's
reported speed is negative, `RLOnlyLane.compute_reward` returns the fixed
penalty −20 immediately, regardless of all other inputs; in the
desired-velocity variants the −20 override produced by the external scorer is
*not* returned unchanged: the lane-change penalty loop still runs afterwards,
so the returned reward is `−20 − k` where `k` is the number of rl vehicles
whose last lane change happened at the current tick (equal to −20 only when
`k = 0`). -/
theorem c3_failure_override (speeds lanes : List ℚ) (target_velocity : ℚ)
    (num_vehicles : ℕ) (fail : Bool) (rl_ids : List ℕ) (last_lc : ℕ → ℤ) (timer : ℤ)
    (h : fail = true ∨ speeds.any (fun v => decide (v < 0)) = true) :
    RLOnlyLane.compute_reward speeds lanes fail target_velocity num_vehicles = -20
    ∧ SimpleLaneChangingAccelerationEnvironment.compute_reward speeds target_velocity fail
        rl_ids last_lc timer
        = -20 - (rl_ids.countP (fun v => decide (last_lc v = timer)) : ℝ) := by
  have hguard : (fail || speeds.any (fun v => decide (v < 0))) = true := by
    rcases h with h | h <;> simp [h]
  constructor
  · unfold RLOnlyLane.compute_reward
    rw [if_pos (by rcases h with h | h <;> simp [h])]
  · unfold SimpleLaneChangingAccelerationEnvironment.compute_reward desired_velocity
    rw [foldl_lc_penalty, if_pos hguard]

/-- Witness for **C3**: with a negative reported speed (and no lane change at
the current tick), both reward functions return exactly −20. -/
theorem c3_failure_override_witness :
    RLOnlyLane.compute_reward [-1] [0] false 10 1 = -20
    ∧ SimpleLaneChangingAccelerationEnvironment.compute_reward [-1] 10 false [0]
        (fun _ => 3) 5 = -20 := by
  have h := c3_failure_override [-1] [0] 10 1 false [0] (fun _ => 3) 5 (Or.inr (by decide))
  refine ⟨h.1, ?_⟩
  rw [h.2]
  norm_num

/-- **C3** counterexample to the claim as stated: with failure signalled and
one rl vehicle that changed lanes at the current tick, the desired-velocity
variant returns −21, not the fixed penalty −20 — the override is not
returned immediately but still decremented by the lane-change penalty. -/
theorem c3_claim_counterexample :
    SimpleLaneChangingAccelerationEnvironment.compute_reward [10] 10 true [0]
        (fun _ => 5) 5 = -21
    ∧ ((-21 : ℝ) ≠ -20) := by
  constructor
  · have h := (c3_failure_override [10] [] 10 1 true [0] (fun _ => 5) 5 (Or.inl rfl)).2
    rw [h]
    norm_num
  · norm_num

/-- **C4**.  The lane-gated velocity tracking policy
(`RLOnlyLane.compute_reward` with the hard-coded `reward_type = 1`), when the
failure override does not trigger, returns `max(max_score − actual_score, 0)`
where `max_score` is the Euclidean norm of the all-vehicles-at-target-velocity
vector and `actual_score` is the Euclidean norm of the per-vehicle
(speed − target) errors with every vehicle not in lane 0 having its speed
replaced by 0 (both stated from the spec's words). -/
theorem c4_lane_gated_refinement (speeds lanes : List ℚ) (target_velocity : ℚ)
    (num_vehicles : ℕ)
    (hneg : speeds.any (fun v => decide (v < 0)) = false) :
    RLOnlyLane.compute_reward speeds lanes false target_velocity num_vehicles
      = max (maxScore_spec target_velocity num_vehicles
          - actualScore_spec speeds lanes target_velocity) 0 := by
  unfold RLOnlyLane.compute_reward maxScore_spec actualScore_spec
  rw [if_neg (by simp [hneg])]
  have hgate : (fun (v l : ℚ) => if l ≠ 0 then 0 else v)
      = (fun (v l : ℚ) => if l = 0 then v else 0) := by
    funext v l
    by_cases hl : l = 0 <;> simp [hl]
  rw [hgate]

/-- Witness for **C4**: two vehicles at speeds 10 and 3, the second not in
lane 0, target velocity 10; the reward is the spec-side
`max(max_score − actual_score, 0)`. -/
theorem c4_lane_gated_refinement_witness :
    RLOnlyLane.compute_reward [10, 3] [0, 1] false 10 2
      = max (maxScore_spec 10 2 - actualScore_spec [10, 3] [0, 1] 10) 0 :=
  c4_lane_gated_refinement [10, 3] [0, 1] 10 2 (by decide)

/-- **C5**.  Whenever the failure override does not trigger (no failure
signal and no negative speed), the lane-gated velocity tracking policy never
returns a negative reward. -/
theorem c5_lane_gated_nonnegative (speeds lanes : List ℚ) (target_velocity : ℚ)
    (num_vehicles : ℕ) (fail : Bool)
    (h : (speeds.any (fun v => decide (v < 0)) || fail) = false) :
    0 ≤ RLOnlyLane.compute_reward speeds lanes fail target_velocity num_vehicles := by
  unfold RLOnlyLane.compute_reward
  rw [if_neg (by simp [h])]
  exact le_max_right _ 0

/-- Witness for **C5**: a slow vehicle stuck out of lane 0 still yields a
non-negative reward. -/
theorem c5_lane_gated_nonnegative_witness :
    0 ≤ RLOnlyLane.compute_reward [5] [1] false 10 1 :=
  c5_lane_gated_nonnegative [5] [1] 10 1 false (by decide)

/-- **C6**.  Desired-velocity tracking with lane-change penalty: when the
failure override does not trigger, the reward of the desired-velocity
variants equals the external velocity-tracking score (the negative Euclidean
norm of the per-vehicle speed errors) minus exactly 1 for every controllable
vehicle whose last-lane-change tick equals the current tick. -/
theorem c6_lane_change_penalty (speeds : List ℚ) (target_velocity : ℚ)
    (rl_ids : List ℕ) (last_lc : ℕ → ℤ) (timer : ℤ)
    (hneg : speeds.any (fun v => decide (v < 0)) = false) :
    SimpleLaneChangingAccelerationEnvironment.compute_reward speeds target_velocity false
        rl_ids last_lc timer
      = -pyNorm (speeds.map (fun v => v - target_velocity))
        - (rl_ids.countP (fun v => decide (last_lc v = timer)) : ℝ) := by
  unfold SimpleLaneChangingAccelerationEnvironment.compute_reward desired_velocity
  rw [foldl_lc_penalty, if_neg (by simp [hneg])]

/-- Witness for **C6**, the spec's two end-to-end scenarios: three vehicles
all exactly at the target velocity 10, no failure; with no lane change at the
current tick the reward is 0, and with exactly one rl vehicle having changed
lanes at the current tick the reward is −1. -/
theorem c6_lane_change_penalty_witness :
    SimpleLaneChangingAccelerationEnvironment.compute_reward [10, 10, 10] 10 false
        [0, 1, 2] (fun _ => 0) 7 = 0
    ∧ SimpleLaneChangingAccelerationEnvironment.compute_reward [10, 10, 10] 10 false
        [0, 1, 2] (fun v => if v = 0 then 7 else 0) 7 = -1 := by
  have hnorm : pyNorm (([10, 10, 10] : List ℚ).map (fun v => v - 10)) = 0 := by
    norm_num [pyNorm]
  constructor
  · rw [c6_lane_change_penalty [10, 10, 10] 10 [0, 1, 2] (fun _ => 0) 7 (by decide), hnorm]
    norm_num
  · rw [c6_lane_change_penalty [10, 10, 10] 10 [0, 1, 2] (fun v => if v = 0 then 7 else 0) 7
      (by decide), hnorm]
    norm_num

/-- **C7**.  Observation Builder: for every vehicle and every realization of
the noise source, the produced row is
`[speed + speed-noise, position + position-noise, lane]` — the noise samples
are added only to the speed and position channels, and the lane channel
equals the simulator's ground-truth lane exactly, for every noise
realization. -/
theorem c7_lane_channel_unperturbed (n : ℕ)
    (speed absolute_position lane noiseV noiseP : ℕ → ℚ) (i : ℕ) (h : i < n) :
    (SimpleLaneChangingAccelerationEnvironment.get_state n speed absolute_position lane
        noiseV noiseP)[i]?
      = some [speed i + noiseV i, absolute_position i + noiseP i, lane i] := by
  unfold SimpleLaneChangingAccelerationEnvironment.get_state
  rw [List.getElem?_map, List.getElem?_range h]
  rfl

/-- Witness for **C7**: one vehicle at speed 5, position 3, lane 2, with
nonzero noise draws 1 on both noisy channels: the lane entry is exactly 2. -/
theorem c7_lane_channel_unperturbed_witness :
    (SimpleLaneChangingAccelerationEnvironment.get_state 1 (fun _ => 5) (fun _ => 3)
        (fun _ => 2) (fun _ => 1) (fun _ => 1))[0]?
      = some [5 + 1, 3 + 1, 2] :=
  c7_lane_channel_unperturbed 1 (fun _ => 5) (fun _ => 3) (fun _ => 2) (fun _ => 1)
    (fun _ => 1) 0 (by decide)

/-- **C8**.  For a well-formed action vector, decoding and dispatch produce
exactly one acceleration and one direction command per controllable vehicle:
the dispatched identifier sequence is exactly the canonical rl ordering
(nothing dropped or reordered), the `i`-th acceleration is `actions[2i]` and
the `i`-th direction comes from `actions[2i+1]`, paired positionally with the
`i`-th vehicle identifier; in the direction-only variant the dispatched
accelerations are likewise one controller output per vehicle in canonical
order. -/
theorem c8_dispatch_alignment (sorted_ids rl_ids : List ℕ) (actions : List ℚ)
    (timer d : ℤ) (last_lc : ℕ → ℤ) (ctrl : ℕ → ℚ)
    (hA : actions.length = 2 * (sortedRLIds sorted_ids rl_ids).length) :
    SimpleLaneChangingAccelerationEnvironment.apply_rl_actions actions sorted_ids rl_ids
        timer d last_lc
      = .ok ⟨sortedRLIds sorted_ids rl_ids, evens actions,
          List.zipWith (fun v q => if lcBlocked timer d (last_lc v) then 0 else (pyRound q : ℚ))
            (sortedRLIds sorted_ids rl_ids) (odds actions)⟩
    ∧ (evens actions).length = (sortedRLIds sorted_ids rl_ids).length
    ∧ (odds actions).length = (sortedRLIds sorted_ids rl_ids).length
    ∧ (∀ i, (evens actions)[i]? = actions[2 * i]?)
    ∧ (∀ i, (odds actions)[i]? = actions[2 * i + 1]?)
    ∧ (∀ dirActions : List ℚ, dirActions.length = (sortedRLIds sorted_ids rl_ids).length →
        LaneChangeOnlyEnvironment.apply_rl_actions dirActions sorted_ids rl_ids
            timer d last_lc ctrl
          = .ok ⟨sortedRLIds sorted_ids rl_ids, (sortedRLIds sorted_ids rl_ids).map ctrl,
              List.zipWith (fun v q => if lcBlocked timer d (last_lc v) then 0 else q)
                (sortedRLIds sorted_ids rl_ids) dirActions⟩) := by
  have hodds : (odds actions).length = (sortedRLIds sorted_ids rl_ids).length := by
    rw [odds_length, hA]
    omega
  have hevens : (evens actions).length = (sortedRLIds sorted_ids rl_ids).length := by
    rw [evens_length, hA]
    omega
  exact ⟨(simple_apply_ok_iff _ _ _ _ _ _ _).mpr ⟨hodds, rfl⟩, hevens, hodds,
    fun i => evens_getElem? actions i, fun i => odds_getElem? actions i,
    fun dirActions hd => (laneOnly_apply_ok_iff _ _ _ _ _ _ _ _).mpr ⟨hd, rfl⟩⟩

/-- Witness for **C8**: two controllable vehicles `[5, 6]`, action vector
`[1, 2, 3, 4]`; the commands decode to accelerations `[1, 3]` and directions
from entries `2` and `4`, addressed to `[5, 6]` in order. -/
theorem c8_dispatch_alignment_witness :
    SimpleLaneChangingAccelerationEnvironment.apply_rl_actions [1, 2, 3, 4] [5, 6] [5, 6]
        0 3 (fun _ => 0)
      = .ok ⟨sortedRLIds [5, 6] [5, 6], evens [1, 2, 3, 4],
          List.zipWith (fun v q => if lcBlocked 0 3 ((fun _ => (0 : ℤ)) v) then 0 else (pyRound q : ℚ))
            (sortedRLIds [5, 6] [5, 6]) (odds [1, 2, 3, 4])⟩
    ∧ (evens ([1, 2, 3, 4] : List ℚ)).length = (sortedRLIds [5, 6] [5, 6]).length
    ∧ (odds ([1, 2, 3, 4] : List ℚ)).length = (sortedRLIds [5, 6] [5, 6]).length
    ∧ (∀ i, (evens ([1, 2, 3, 4] : List ℚ))[i]? = ([1, 2, 3, 4] : List ℚ)[2 * i]?)
    ∧ (∀ i, (odds ([1, 2, 3, 4] : List ℚ))[i]? = ([1, 2, 3, 4] : List ℚ)[2 * i + 1]?)
    ∧ (∀ dirActions : List ℚ, dirActions.length = (sortedRLIds [5, 6] [5, 6]).length →
        LaneChangeOnlyEnvironment.apply_rl_actions dirActions [5, 6] [5, 6]
            0 3 (fun _ => 0) (fun _ => 9)
          = .ok ⟨sortedRLIds [5, 6] [5, 6], (sortedRLIds [5, 6] [5, 6]).map (fun _ => 9),
              List.zipWith (fun v q => if lcBlocked 0 3 ((fun _ => (0 : ℤ)) v) then 0 else q)
                (sortedRLIds [5, 6] [5, 6]) dirActions⟩) :=
  c8_dispatch_alignment [5, 6] [5, 6] [1, 2, 3, 4] 0 3 (fun _ => 0) (fun _ => 9) (by decide)

/-- **C9**.  Frame effect of the cooldown filter in the interleaved variant:
whenever `apply_rl_actions` succeeds, the dispatched accelerations are
exactly the even-indexed action entries, unchanged — the conclusion does not
depend on the tick, the cooldown duration or any vehicle's last-change tick,
so the filter modifies only the direction commands. -/
theorem c9_accels_unfiltered (actions : List ℚ) (sorted_ids rl_ids : List ℕ)
    (timer d : ℤ) (last_lc : ℕ → ℤ) (out : AppliedCommands)
    (h : SimpleLaneChangingAccelerationEnvironment.apply_rl_actions actions sorted_ids rl_ids
        timer d last_lc = .ok out) :
    out.accels = evens actions ∧ out.ids = sortedRLIds sorted_ids rl_ids := by
  obtain ⟨-, hout⟩ := (simple_apply_ok_iff _ _ _ _ _ _ _).mp h
  rw [hout]
  exact ⟨rfl, rfl⟩

/-- Witness for **C9**: a vehicle inside its cooldown (direction forced to 0)
still receives its acceleration entry `1` untouched. -/
theorem c9_accels_unfiltered_witness :
    ({ ids := [0], accels := [1], dirs := [0] } : AppliedCommands).accels = evens [1, 2]
    ∧ ({ ids := [0], accels := [1], dirs := [0] } : AppliedCommands).ids = sortedRLIds [0] [0] :=
  c9_accels_unfiltered [1, 2] [0] [0] 0 0 (fun _ => 0) { ids := [0], accels := [1], dirs := [0] } rfl

/-- **C10**.  `LaneChangeOnlyEnvironment.apply_rl_actions` mutates the
caller-supplied action buffer in place (`direction = actions` aliases it):
for every vehicle within its cooldown, the corresponding entry of the
caller's buffer is overwritten with 0 after the call, so whenever that entry
was nonzero the caller's array has changed. -/
theorem c10_buffer_mutation (actions : List ℚ) (sorted_ids rl_ids : List ℕ)
    (timer d : ℤ) (last_lc : ℕ → ℤ) (ctrl : ℕ → ℚ) (i v : ℕ)
    (hlen : actions.length = (sortedRLIds sorted_ids rl_ids).length)
    (hv : (sortedRLIds sorted_ids rl_ids)[i]? = some v)
    (hblocked : lcBlocked timer d (last_lc v) = true) :
    ∃ post, LaneChangeOnlyEnvironment.apply_rl_actions actions sorted_ids rl_ids
        timer d last_lc ctrl
        = .ok ⟨sortedRLIds sorted_ids rl_ids, (sortedRLIds sorted_ids rl_ids).map ctrl, post⟩
      ∧ post[i]? = some 0
      ∧ (actions[i]? ≠ some 0 → post ≠ actions) := by
  have hi : i < (sortedRLIds sorted_ids rl_ids).length := by
    rcases Nat.lt_or_ge i (sortedRLIds sorted_ids rl_ids).length with hlt | hge
    · exact hlt
    · rw [List.getElem?_eq_none hge] at hv
      cases hv
  have hia : i < actions.length := by
    rw [hlen]
    exact hi
  have hpost : (List.zipWith (fun v q => if lcBlocked timer d (last_lc v) then 0 else q)
      (sortedRLIds sorted_ids rl_ids) actions)[i]? = some 0 := by
    rw [List.getElem?_zipWith, hv, List.getElem?_eq_getElem hia]
    simp [hblocked]
  refine ⟨_, (laneOnly_apply_ok_iff _ _ _ _ _ _ _ _).mpr ⟨hlen, rfl⟩, hpost, ?_⟩
  intro hne heq
  exact hne (heq ▸ hpost)

/-- Witness for **C10**: a single vehicle inside its cooldown with requested
direction 3; after the call the caller's buffer holds 0 in that entry, so the
buffer changed. -/
theorem c10_buffer_mutation_witness :
    ∃ post, LaneChangeOnlyEnvironment.apply_rl_actions [3] [7] [7] 0 5 (fun _ => 0) (fun _ => 9)
        = .ok ⟨sortedRLIds [7] [7], (sortedRLIds [7] [7]).map (fun _ => 9), post⟩
      ∧ post[0]? = some 0
      ∧ (([3] : List ℚ)[0]? ≠ some 0 → post ≠ [3]) :=
  c10_buffer_mutation [3] [7] [7] 0 5 (fun _ => 0) (fun _ => 9) 0 7 (by decide) (by decide)
    (by decide)

end LaneChangingEnv

